import Mathlib

/-!
Shallow embedding of the Trust Trade Stars bot
(`trust_trade_stars_bot.py`, `stars_invoice_bot.py`).

Time is modelled as an `Int` measured in days: the Python code stores
`datetime.utcnow()` in `paid_at` and compares `now - paid_at` against
`timedelta(days=30)`, so only the difference in days matters to any claim.
Python's truncating-vs-signed subtlety does not arise because we use `Int`.

The membership store `MEMBERS : Dict[int, dict]` is a Python dict mapping a
user id to at most one record, embedded as `Nat → Option MembershipRecord`;
dict assignment `MEMBERS[uid] = {...}` is the pointwise update `grant`.

Transport effects (Telegram messages) are embedded by their observable
payload: the handlers return the updated store together with an `Outcome`
(for `on_success`), an `IssueResult` (for `send_invoice`), or a
`BuyResult` (for `on_buy_click`).  Message delivery to admins is modelled
with an oracle `deliver : Int → Bool` telling whether sending to a given
chat id succeeds; the Python `try/except` around each send is embedded by
the function being total regardless of the oracle.
-/

namespace TrustTrade

/-- `MEMBERSHIP_DURATION_DAYS = 30` from the source, in day units. -/
def MEMBERSHIP_DURATION_DAYS : Int := 30

/-- One entry of the `MEMBERS` dict: `{"tier": ..., "paid_at": ...}`. -/
structure MembershipRecord where
  tier : String
  paid_at : Int
  deriving DecidableEq, Repr

/-- The `MEMBERS` dict: user id to at most one record. -/
abbrev Store := Nat → Option MembershipRecord

/-- The empty `MEMBERS` dict at process start. -/
def emptyStore : Store := fun _ => none

/-- Source `is_member`: a record exists and `now - paid_at <= 30 days`. -/
def is_member (s : Store) (now : Int) (user_id : Nat) : Bool :=
  match s user_id with
  | none => false
  | some rec => decide (now - rec.paid_at ≤ MEMBERSHIP_DURATION_DAYS)

/-- Source `tier_of`: the stored tier when `is_member`, else `None`. -/
def tier_of (s : Store) (now : Int) (user_id : Nat) : Option String :=
  if is_member s now user_id then (s user_id).map MembershipRecord.tier else none

/-- Source `can_use_member_doc`: Python `bool(t and t != "mem-free")` — the
tier string must be truthy (non-empty) and differ from `"mem-free"`. -/
def can_use_member_doc (s : Store) (now : Int) (user_id : Nat) : Bool :=
  match tier_of s now user_id with
  | none => false
  | some t => (!(t = "")) && (!(t = "mem-free"))

/-- Source `Product` dataclass. -/
structure Product where
  key : String
  title : String
  desc : String
  stars : Nat
  deriving DecidableEq, Repr

/-- Source `MEMBERSHIP_TIERS` list, verbatim. -/
def MEMBERSHIP_TIERS : List Product :=
  [⟨"mem-free",     "Free Member",     "Free membership — no verifications; Free Members group.", 0⟩,
   ⟨"mem-verified", "Verified Member", "Monthly Access Tier. Starts on today.", 550⟩,
   ⟨"mem-pro",      "Pro Member",      "Monthly Access Tier. Starts on today.", 1500⟩,
   ⟨"mem-vip",      "Vip Member",      "Monthly Access Tier. Starts on today.", 5000⟩,
   ⟨"mem-king",     "The Oil King",    "Unlimited verifications + dedicated manager.", 300000⟩]

/-- Source `PER_DOC_MEMBER`. -/
def PER_DOC_MEMBER : Product :=
  ⟨"verify", "Document Verification", "Per-document review (members). 1–4h result.", 150⟩

/-- Source `PER_DOC_GUEST`. -/
def PER_DOC_GUEST : Product :=
  ⟨"verify-guest", "One-Time Verification", "Per-document (no membership). 1–4h result.", 350⟩

/-- Source `find_product`: the two per-doc keys first, then the first
matching membership tier, else `None`. -/
def find_product (key : String) : Option Product :=
  if key = PER_DOC_MEMBER.key then some PER_DOC_MEMBER
  else if key = PER_DOC_GUEST.key then some PER_DOC_GUEST
  else MEMBERSHIP_TIERS.find? (fun p => p.key = key)

/-- The full catalog reachable through `find_product`. -/
def catalog : List Product := MEMBERSHIP_TIERS ++ [PER_DOC_MEMBER, PER_DOC_GUEST]

/-- Dict assignment `MEMBERS[user_id] = {"tier": tier, "paid_at": now}`. -/
def grant (s : Store) (user_id : Nat) (tier : String) (now : Int) : Store :=
  fun u => if u = user_id then some ⟨tier, now⟩ else s u

/-- Python `str.title()` restricted to ASCII letters: the first letter of
every letter-run is uppercased, the rest lowercased.  Used only for the
fabricated product title in `on_success`; no claim inspects titles. -/
def pyTitleAux : Bool → List Char → List Char
  | _, [] => []
  | prevAlpha, c :: cs =>
      let c' := if c.isAlpha then (if prevAlpha then c.toLower else c.toUpper) else c
      c' :: pyTitleAux c.isAlpha cs

def pyTitle (s : String) : String := ⟨pyTitleAux false s.data⟩

/-- `":" in s` of Python, on the character list of the string. -/
def strContainsColon (s : String) : Bool := s.data.contains ':'

/-- Characters before the first `':'` (the whole list when none):
Python `s.split(":")[0]`. -/
def beforeColon : List Char → List Char
  | [] => []
  | c :: cs => if c = ':' then [] else c :: beforeColon cs

/-- Characters after the first `':'` (empty when none):
Python `s.split(":", 1)[1]`, keeping later colons. -/
def afterColon : List Char → List Char
  | [] => []
  | c :: cs => if c = ':' then cs else afterColon cs

/-- Python `s.startswith(pre)`. -/
def strStartsWith (s pre : String) : Bool := pre.data.isPrefixOf s.data

/-- Inbound `successful_payment` event: the fields `on_success` reads.
`invoice_payload` is the reference string; a Python `None` payload is
already collapsed to `""` by `sp.invoice_payload or ""`. -/
structure SuccessfulPayment where
  invoice_payload : String
  total_amount : Nat
  deriving DecidableEq, Repr

/-- `pkey = payload.split(":")[0] if ":" in payload else payload`. -/
def parse_pkey (payload : String) : String :=
  if strContainsColon payload then ⟨beforeColon payload.data⟩ else payload

/-- `prod = find_product(pkey) or Product(pkey, pkey.title(), "", sp.total_amount)`:
an unresolved key is NOT rejected — a product is fabricated from it. -/
def resolve_product (pkey : String) (total_amount : Nat) : Product :=
  match find_product pkey with
  | some p => p
  | none => ⟨pkey, pyTitle pkey, "", total_amount⟩

inductive OutcomeKind where
  | MembershipGranted
  | DocumentCredited
  deriving DecidableEq, Repr

/-- What `on_success` reports (user reply + admin alert payload). -/
structure Outcome where
  kind : OutcomeKind
  productKey : String
  amount : Nat
  deriving DecidableEq, Repr

/-- Source `on_success`: parse the payload's product key, resolve (or
fabricate) a product, and if its key starts with `"mem-"` assign
`MEMBERS[user.id] = {"tier": prod.key, "paid_at": utcnow()}`; otherwise
leave the store untouched and report a document credit.  There is no
rejection path and the confirmed amount is never compared to anything. -/
def on_success (s : Store) (now : Int) (user_id : Nat) (sp : SuccessfulPayment) :
    Store × Outcome :=
  let prod := resolve_product (parse_pkey sp.invoice_payload) sp.total_amount
  if strStartsWith prod.key "mem-" then
    (grant s user_id prod.key now,
     ⟨OutcomeKind.MembershipGranted, prod.key, sp.total_amount⟩)
  else
    (s, ⟨OutcomeKind.DocumentCredited, prod.key, sp.total_amount⟩)

/-- Observable result of `send_invoice`: either the free-activation path
(no invoice) or a Stars invoice with the given title, amount and payload. -/
inductive IssueResult where
  | FreeActivation
  | PaymentRequest (title : String) (amount : Nat) (payload : String)
  deriving DecidableEq, Repr

/-- The invoice payload `f"{product.key}:{product.stars}"` — the reference
string carried end-to-end to the confirmation event. -/
def mkRef (product : Product) : String :=
  product.key ++ ":" ++ toString product.stars

/-- Source `send_invoice`: for `mem-free` assign the membership record and
send no invoice; otherwise send an invoice whose payload is
`f"{product.key}:{product.stars}"`.  Transport failures of the invoice
call do not touch the store and are not modelled further. -/
def send_invoice (s : Store) (now : Int) (user_id : Nat) (product : Product) :
    Store × IssueResult :=
  if product.key = "mem-free" then
    (grant s user_id "mem-free" now, IssueResult.FreeActivation)
  else
    (s, IssueResult.PaymentRequest product.title product.stars (mkRef product))

/-- Observable result of `on_buy_click`. -/
inductive BuyResult where
  | InvalidSelection
  | UnknownPackage
  | RequiresPaidMembership
  | Issued (r : IssueResult)
  deriving DecidableEq, Repr

/-- `key = data.split(":", 1)[1] if ":" in data else ""`: everything after
the first colon (later colons kept), else the empty string. -/
def parse_buy_key (data : String) : String :=
  if strContainsColon data then ⟨afterColon data.data⟩ else ""

/-- Source `on_buy_click`: extract the key from the callback data, look it
up, gate the member-priced document behind `can_use_member_doc`, and
otherwise fall through to `send_invoice`. -/
def on_buy_click (s : Store) (now : Int) (user_id : Nat) (data : String) :
    Store × BuyResult :=
  let key := parse_buy_key data
  if key = "" then (s, BuyResult.InvalidSelection)
  else
    match find_product key with
    | none => (s, BuyResult.UnknownPackage)
    | some prod =>
        if prod.key = PER_DOC_MEMBER.key && !(can_use_member_doc s now user_id) then
          (s, BuyResult.RequiresPaidMembership)
        else
          let r := send_invoice s now user_id prod
          (r.1, BuyResult.Issued r.2)

/-- One admin notification attempt and whether the transport reached it. -/
structure DeliveryAttempt where
  recipient : Int
  ok : Bool
  deriving DecidableEq, Repr

/-- Source `admin_alert`: `if not ADMIN_IDS: return`, then one guarded send
per configured id.  Each send is wrapped in `try/except`, so a failure is
recorded and the loop continues; embedding: a total function over a
delivery oracle, returning the per-recipient report. -/
def admin_alert (admin_ids : List Int) (deliver : Int → Bool) : List DeliveryAttempt :=
  match admin_ids with
  | [] => []
  | _ => admin_ids.map (fun a => ⟨a, deliver a⟩)

/-- `on_success` followed by its `admin_alert` fan-out, as the handler
performs them: the store transition happens before and independently of
any notification delivery. -/
def on_success_and_alert (s : Store) (now : Int) (user_id : Nat)
    (sp : SuccessfulPayment) (admin_ids : List Int) (deliver : Int → Bool) :
    Store × Outcome × List DeliveryAttempt :=
  let r := on_success s now user_id sp
  (r.1, r.2, admin_alert admin_ids deliver)

/-- Fields of a Telegram pre-checkout query visible to the handlers. -/
structure PreCheckoutQuery where
  invoice_payload : String
  total_amount : Nat
  from_user : Nat
  deriving DecidableEq, Repr

/-- Source `precheckout` in `trust_trade_stars_bot.py`:
`await update.pre_checkout_query.answer(ok=True)`, unconditionally. -/
def precheckout (_s : Store) (_now : Int) (_q : PreCheckoutQuery) : Bool :=
  true

/-- Source `precheckout` in `stars_invoice_bot.py`: likewise answers
`ok=True` for every query. -/
def stars_bot_precheckout (_q : PreCheckoutQuery) : Bool :=
  true

/-- Derived read, `getActiveMembership` of the spec, assembled from the
code's pieces exactly as `tier_of` assembles them: the stored record when
`is_member`, else `None`. -/
def get_active_membership (s : Store) (now : Int) (user_id : Nat) :
    Option MembershipRecord :=
  if is_member s now user_id then s user_id else none

/-- Expiry is computed at read time: `paid_at + 30 days`. -/
def expires_at (rec : MembershipRecord) : Int :=
  rec.paid_at + MEMBERSHIP_DURATION_DAYS

/-- Predicate taken from the spec's words for claim C4: the user has an
active (unexpired) membership record whose tier is not the zero-price
free tier.  Compared against the code's `can_use_member_doc`. -/
def specMemberDocAllowed (s : Store) (now : Int) (user_id : Nat) : Prop :=
  ∃ rec, get_active_membership s now user_id = some rec ∧ rec.tier ≠ "mem-free"

/-! ### Shared helper lemmas -/

theorem catalog_resolve :
    ∀ p ∈ catalog, parse_pkey (mkRef p) = p.key ∧ find_product p.key = some p := by
  decide

theorem tiers_key_mem :
    ∀ p ∈ MEMBERSHIP_TIERS, strStartsWith p.key "mem-" = true := by
  decide

theorem tiers_sub_catalog : ∀ p ∈ MEMBERSHIP_TIERS, p ∈ catalog := by
  decide

theorem resolve_of_find (pkey : String) (amt : Nat) (p : Product)
    (h : find_product pkey = some p) : resolve_product pkey amt = p := by
  simp [resolve_product, h]

theorem resolve_of_not_found (pkey : String) (amt : Nat)
    (h : find_product pkey = none) :
    resolve_product pkey amt = ⟨pkey, pyTitle pkey, "", amt⟩ := by
  simp [resolve_product, h]

theorem grant_self (s : Store) (u : Nat) (t : String) (n : Int) :
    grant s u t n u = some ⟨t, n⟩ := by
  simp [grant]

theorem grant_grant (s : Store) (u : Nat) (t t' : String) (n1 n2 : Int) :
    grant (grant s u t n1) u t' n2 = grant s u t' n2 :=
  funext fun v => by by_cases hv : v = u <;> simp [grant, hv]

theorem zero_price_key : ∀ p ∈ catalog, p.stars = 0 → p.key = "mem-free" := by
  decide

theorem on_success_membership (s : Store) (now : Int) (u : Nat) (p : Product)
    (hp : p ∈ MEMBERSHIP_TIERS) (amt : Nat) :
    on_success s now u ⟨mkRef p, amt⟩
      = (grant s u p.key now, ⟨OutcomeKind.MembershipGranted, p.key, amt⟩) := by
  obtain ⟨h1, h2⟩ := catalog_resolve p (tiers_sub_catalog p hp)
  have hm := tiers_key_mem p hp
  simp [on_success, h1, resolve_of_find _ _ _ h2, hm]

theorem is_member_grant (s : Store) (u : Nat) (t : String) (now : Int) :
    is_member (grant s u t now) now u = true := by
  simp [is_member, grant, MEMBERSHIP_DURATION_DAYS]

theorem can_use_iff (s : Store) (now : Int) (u : Nat)
    (h : ∀ rec, s u = some rec → rec.tier ≠ "") :
    can_use_member_doc s now u = true ↔ specMemberDocAllowed s now u := by
  unfold can_use_member_doc tier_of specMemberDocAllowed get_active_membership
  cases him : is_member s now u with
  | false => simp
  | true =>
    cases hsu : s u with
    | none => simp [is_member, hsu] at him
    | some rec =>
      have hne := h rec hsu
      simp [hsu, hne]

/-! ### Claims -/

/-- C1, counterexample: the reference `"mem-pro:1500"` declares price 1500
and resolves to the Pro tier, yet the confirmation with `confirmedAmount
= 999` is not rejected — `on_success` reports `MembershipGranted` and
writes a `mem-pro` record into the previously empty store. -/
theorem C1_counterexample :
    find_product "mem-pro"
        = some ⟨"mem-pro", "Pro Member", "Monthly Access Tier. Starts on today.", 1500⟩
    ∧ (on_success emptyStore 0 7 ⟨"mem-pro:1500", 999⟩).2
        = ⟨OutcomeKind.MembershipGranted, "mem-pro", 999⟩
    ∧ (on_success emptyStore 0 7 ⟨"mem-pro:1500", 999⟩).1 7 = some ⟨"mem-pro", 0⟩
    ∧ emptyStore 7 = none := by
  decide

/-- C1, amended: the confirmation processor performs no amount validation
at all.  For every catalog product and every confirmed amount differing
from the declared price, the confirmation is processed exactly as a
matching one: a membership-key reference grants the membership (mutating
the store) and any other reference is credited as a document — nothing is
ever rejected. -/
theorem C1_no_amount_validation (s : Store) (now : Int) (u : Nat) (p : Product)
    (amt : Nat) (hp : p ∈ catalog) (hamt : amt ≠ p.stars) :
    on_success s now u ⟨mkRef p, amt⟩
      = (if strStartsWith p.key "mem-" then grant s u p.key now else s,
         ⟨if strStartsWith p.key "mem-" then OutcomeKind.MembershipGranted
           else OutcomeKind.DocumentCredited, p.key, amt⟩) := by
  obtain ⟨h1, h2⟩ := catalog_resolve p hp
  simp only [on_success, h1, resolve_of_find _ _ _ h2]
  cases hb : strStartsWith p.key "mem-" <;> simp [hb]

/-- C1 witness: the amended theorem applied to the Pro tier with the
mismatched amount 999. -/
theorem C1_witness :
    on_success emptyStore 0 7
        ⟨mkRef ⟨"mem-pro", "Pro Member", "Monthly Access Tier. Starts on today.", 1500⟩, 999⟩
      = (if strStartsWith "mem-pro" "mem-" then grant emptyStore 7 "mem-pro" 0 else emptyStore,
         ⟨if strStartsWith "mem-pro" "mem-" then OutcomeKind.MembershipGranted
           else OutcomeKind.DocumentCredited, "mem-pro", 999⟩) :=
  C1_no_amount_validation emptyStore 0 7
    ⟨"mem-pro", "Pro Member", "Monthly Access Tier. Starts on today.", 1500⟩ 999
    (by decide) (by decide)

/-- C2, counterexample: `find_product` does not resolve `"mem-gold"`, yet
the confirmation `{reference: "mem-gold:100", confirmedAmount: 100}` is
not rejected — it grants a membership with the unresolved tier key
`"mem-gold"`. -/
theorem C2_counterexample :
    find_product (parse_pkey "mem-gold:100") = none
    ∧ (on_success emptyStore 0 7 ⟨"mem-gold:100", 100⟩).2
        = ⟨OutcomeKind.MembershipGranted, "mem-gold", 100⟩
    ∧ (on_success emptyStore 0 7 ⟨"mem-gold:100", 100⟩).1 7 = some ⟨"mem-gold", 0⟩ := by
  decide

/-- C2, amended: a reference whose parsed product key is absent from the
catalog is never rejected.  The processor fabricates a product from the
parsed key; when that key starts with `"mem-"` it grants a membership for
the unresolved key, otherwise it credits a document and leaves the store
unchanged.  No BadReference or UnknownProduct outcome exists. -/
theorem C2_unresolved_key_still_processed (s : Store) (now : Int) (u : Nat)
    (payload : String) (amt : Nat)
    (h : find_product (parse_pkey payload) = none) :
    on_success s now u ⟨payload, amt⟩
      = (if strStartsWith (parse_pkey payload) "mem-" then
           grant s u (parse_pkey payload) now
         else s,
         ⟨if strStartsWith (parse_pkey payload) "mem-" then OutcomeKind.MembershipGranted
           else OutcomeKind.DocumentCredited, parse_pkey payload, amt⟩) := by
  simp only [on_success, resolve_of_not_found _ _ h]
  cases hb : strStartsWith (parse_pkey payload) "mem-" <;> simp [hb]

/-- C2 witness: the amended theorem applied to the unresolved reference
`"mem-gold:100"`. -/
theorem C2_witness :
    on_success emptyStore 0 7 ⟨"mem-gold:100", 100⟩
      = (if strStartsWith (parse_pkey "mem-gold:100") "mem-" then
           grant emptyStore 7 (parse_pkey "mem-gold:100") 0
         else emptyStore,
         ⟨if strStartsWith (parse_pkey "mem-gold:100") "mem-" then
             OutcomeKind.MembershipGranted
           else OutcomeKind.DocumentCredited, parse_pkey "mem-gold:100", 100⟩) :=
  C2_unresolved_key_still_processed emptyStore 0 7 "mem-gold:100" 100 (by decide)

/-- C3: for every user and every membership tier in the catalog, after
`on_success` processes a confirmation carrying that tier's reference, the
store's active membership for the user has tier equal to the product key,
and its expiry (`paid_at + 30 days`, computed at read time) equals the
processing time plus 30 days.  The handler reports `MembershipGranted`. -/
theorem C3_membership_grant_sets_tier_and_expiry (s : Store) (now : Int) (u : Nat)
    (p : Product) (hp : p ∈ MEMBERSHIP_TIERS) :
    (on_success s now u ⟨mkRef p, p.stars⟩).2
        = ⟨OutcomeKind.MembershipGranted, p.key, p.stars⟩
    ∧ get_active_membership (on_success s now u ⟨mkRef p, p.stars⟩).1 now u
        = some ⟨p.key, now⟩
    ∧ expires_at ⟨p.key, now⟩ = now + 30 := by
  rw [on_success_membership s now u p hp p.stars]
  refine ⟨rfl, ?_, by simp [expires_at, MEMBERSHIP_DURATION_DAYS]⟩
  simp [get_active_membership, is_member_grant, grant_self]

/-- C3 witness: granting the Pro tier for user 3 at time 5. -/
theorem C3_witness :
    (on_success emptyStore 5 3
        ⟨mkRef ⟨"mem-pro", "Pro Member", "Monthly Access Tier. Starts on today.", 1500⟩,
         1500⟩).2
        = ⟨OutcomeKind.MembershipGranted, "mem-pro", 1500⟩
    ∧ get_active_membership
        (on_success emptyStore 5 3
          ⟨mkRef ⟨"mem-pro", "Pro Member", "Monthly Access Tier. Starts on today.", 1500⟩,
           1500⟩).1 5 3
        = some ⟨"mem-pro", 5⟩
    ∧ expires_at ⟨"mem-pro", 5⟩ = 5 + 30 :=
  C3_membership_grant_sets_tier_and_expiry emptyStore 5 3
    ⟨"mem-pro", "Pro Member", "Monthly Access Tier. Starts on today.", 1500⟩ (by decide)

/-- C4: clicking buy on the member-priced document product leaves the store
unchanged, and the result is the 150-star invoice exactly when the user
has an active membership whose tier is not the free tier, and a denial
otherwise.  The hypothesis — every stored tier is a non-empty string —
holds in every state the handlers can reach, since every write stores a
key starting with `"mem-"`; it separates the code's truthiness test
`bool(t and t != "mem-free")` from the spec's predicate, which agree on
all such states. -/
theorem C4_member_doc_gate (s : Store) (now : Int) (u : Nat)
    (h : ∀ rec, s u = some rec → rec.tier ≠ "") :
    (on_buy_click s now u "buy:verify").1 = s
    ∧ ((on_buy_click s now u "buy:verify").2
        = BuyResult.Issued (IssueResult.PaymentRequest "Document Verification" 150 "verify:150")
        ↔ specMemberDocAllowed s now u)
    ∧ ((on_buy_click s now u "buy:verify").2 = BuyResult.RequiresPaidMembership
        ↔ ¬ specMemberDocAllowed s now u) := by
  have hk : parse_buy_key "buy:verify" = "verify" := by decide
  have hne : ("verify" : String) ≠ "" := by decide
  have hf : find_product "verify" = some PER_DOC_MEMBER := by decide
  have hiff := can_use_iff s now u h
  unfold on_buy_click
  rw [hk]
  simp only [hne, if_false, hf]
  cases hc : can_use_member_doc s now u with
  | true =>
    have hspec : specMemberDocAllowed s now u := hiff.mp hc
    simp [hc, hspec, send_invoice, PER_DOC_MEMBER, mkRef]
    decide
  | false =>
    have hspec : ¬ specMemberDocAllowed s now u := fun hs => by
      rw [hiff.mpr hs] at hc; exact Bool.noConfusion hc
    simp [hc, hspec, PER_DOC_MEMBER]

/-- C4 witness: a user holding an unexpired Pro membership is issued the
150-star invoice; the store is read, not written. -/
theorem C4_witness :
    (on_buy_click (grant emptyStore 5 "mem-pro" 0) 0 5 "buy:verify").1
        = grant emptyStore 5 "mem-pro" 0
    ∧ ((on_buy_click (grant emptyStore 5 "mem-pro" 0) 0 5 "buy:verify").2
        = BuyResult.Issued (IssueResult.PaymentRequest "Document Verification" 150 "verify:150")
        ↔ specMemberDocAllowed (grant emptyStore 5 "mem-pro" 0) 0 5)
    ∧ ((on_buy_click (grant emptyStore 5 "mem-pro" 0) 0 5 "buy:verify").2
        = BuyResult.RequiresPaidMembership
        ↔ ¬ specMemberDocAllowed (grant emptyStore 5 "mem-pro" 0) 0 5) :=
  C4_member_doc_gate (grant emptyStore 5 "mem-pro" 0) 0 5
    (fun rec hrec => by
      simp [grant, emptyStore] at hrec
      simp [← hrec])

/-- C5: a grant replaces the prior record unconditionally — granting tier A
and then tier B for the same user yields the store that a single grant of
B would, the user's record reflects B only (for no timestamp does it
equal an A record), and other users are untouched.  At most one record
per user holds structurally: the store, like the Python dict `MEMBERS`,
maps each user id to at most one record. -/
theorem C5_grant_replaces (s : Store) (u : Nat) (tA tB : String) (t1 t2 : Int)
    (hne : tB ≠ tA) :
    grant (grant s u tA t1) u tB t2 = grant s u tB t2
    ∧ grant (grant s u tA t1) u tB t2 u = some ⟨tB, t2⟩
    ∧ (∀ v, v ≠ u → grant (grant s u tA t1) u tB t2 v = s v)
    ∧ ∀ t', grant (grant s u tA t1) u tB t2 u ≠ some ⟨tA, t'⟩ := by
  refine ⟨funext fun v => ?_, grant_self _ _ _ _, fun v hv => by simp [grant, hv],
    fun t' hcon => ?_⟩
  · by_cases hv : v = u <;> simp [grant, hv]
  · rw [grant_self] at hcon
    exact hne (congrArg (fun o => (o.getD ⟨tB, t2⟩).tier) hcon)

/-- C5 witness: granting `mem-verified` then `mem-pro` for user 5. -/
theorem C5_witness :
    grant (grant emptyStore 5 "mem-verified" 1) 5 "mem-pro" 2
        = grant emptyStore 5 "mem-pro" 2
    ∧ grant (grant emptyStore 5 "mem-verified" 1) 5 "mem-pro" 2 5
        = some ⟨"mem-pro", 2⟩
    ∧ (∀ v, v ≠ 5 → grant (grant emptyStore 5 "mem-verified" 1) 5 "mem-pro" 2 v
        = emptyStore v)
    ∧ ∀ t', grant (grant emptyStore 5 "mem-verified" 1) 5 "mem-pro" 2 5
        ≠ some ⟨"mem-verified", t'⟩ :=
  C5_grant_replaces emptyStore 5 "mem-verified" "mem-pro" 1 2 (by decide)

/-- C6: re-processing the identical confirmation is idempotent-safe — the
state and outcome after processing twice (at times `now1`, `now2`) equal
those of a single processing at `now2`, so nothing raises and nothing
accumulates; and when the confirmation grants a membership, the record
after the second processing carries `paid_at = now2`, i.e. its 30-day
window is reset to the second processing time. -/
theorem C6_reprocessing_idempotent_safe (s : Store) (now1 now2 : Int) (u : Nat)
    (sp : SuccessfulPayment) :
    on_success (on_success s now1 u sp).1 now2 u sp = on_success s now2 u sp
    ∧ (strStartsWith (resolve_product (parse_pkey sp.invoice_payload)
          sp.total_amount).key "mem-" = true →
        (on_success (on_success s now1 u sp).1 now2 u sp).1 u
          = some ⟨(resolve_product (parse_pkey sp.invoice_payload)
                     sp.total_amount).key, now2⟩) := by
  constructor
  · unfold on_success
    cases hb : strStartsWith (resolve_product (parse_pkey sp.invoice_payload)
        sp.total_amount).key "mem-" <;>
      simp [hb, grant_grant]
  · intro hb
    simp [on_success, hb, grant_grant, grant_self]

/-- C6 witness: the Pro confirmation processed at times 1 and then 2
equals a single processing at time 2, and the surviving record's window
starts at time 2. -/
theorem C6_witness :
    on_success (on_success emptyStore 1 7 ⟨"mem-pro:1500", 1500⟩).1 2 7
        ⟨"mem-pro:1500", 1500⟩
      = on_success emptyStore 2 7 ⟨"mem-pro:1500", 1500⟩
    ∧ (on_success (on_success emptyStore 1 7 ⟨"mem-pro:1500", 1500⟩).1 2 7
        ⟨"mem-pro:1500", 1500⟩).1 7
      = some ⟨"mem-pro", 2⟩ :=
  ⟨(C6_reprocessing_idempotent_safe emptyStore 1 2 7 ⟨"mem-pro:1500", 1500⟩).1, by
    have h := (C6_reprocessing_idempotent_safe emptyStore 1 2 7
      ⟨"mem-pro:1500", 1500⟩).2 (by decide)
    exact (by decide :
      (resolve_product (parse_pkey "mem-pro:1500") 1500).key = "mem-pro") ▸ h⟩

/-- C7: for every catalog product with price 0 (the free tier is the only
one), `send_invoice` builds no monetary request — it grants the
`mem-free` membership immediately and returns `FreeActivation`, and the
store reports an active `mem-free` membership for the user with no
confirmation event involved. -/
theorem C7_zero_price_free_activation (s : Store) (now : Int) (u : Nat)
    (p : Product) (hp : p ∈ catalog) (hz : p.stars = 0) :
    send_invoice s now u p = (grant s u "mem-free" now, IssueResult.FreeActivation)
    ∧ get_active_membership (grant s u "mem-free" now) now u
        = some ⟨"mem-free", now⟩
    ∧ tier_of (grant s u "mem-free" now) now u = some "mem-free" := by
  have hkey := zero_price_key p hp hz
  refine ⟨by simp [send_invoice, hkey], ?_, ?_⟩
  · simp [get_active_membership, is_member_grant, grant_self]
  · simp [tier_of, is_member_grant, grant_self]

/-- C7 witness: the free tier for user 4 at time 9. -/
theorem C7_witness :
    send_invoice emptyStore 9 4
        ⟨"mem-free", "Free Member",
         "Free membership — no verifications; Free Members group.", 0⟩
      = (grant emptyStore 4 "mem-free" 9, IssueResult.FreeActivation)
    ∧ get_active_membership (grant emptyStore 4 "mem-free" 9) 9 4
        = some ⟨"mem-free", 9⟩
    ∧ tier_of (grant emptyStore 4 "mem-free" 9) 9 4 = some "mem-free" :=
  C7_zero_price_free_activation emptyStore 9 4
    ⟨"mem-free", "Free Member",
     "Free membership — no verifications; Free Members group.", 0⟩
    (by decide) (by decide)

/-- C8: a confirmation whose reference resolves to a non-membership
(document) product is credited as a document and the returned store is
literally the input store — no user's membership record is written. -/
theorem C8_document_confirmation_keeps_store (s : Store) (now : Int) (u : Nat)
    (sp : SuccessfulPayment) (p : Product)
    (hfind : find_product (parse_pkey sp.invoice_payload) = some p)
    (hdoc : strStartsWith p.key "mem-" = false) :
    on_success s now u sp
      = (s, ⟨OutcomeKind.DocumentCredited, p.key, sp.total_amount⟩) := by
  simp [on_success, resolve_of_find _ _ _ hfind, hdoc]

/-- C8 witness: the guest document confirmation `verify-guest:350`. -/
theorem C8_witness :
    on_success emptyStore 0 7 ⟨"verify-guest:350", 350⟩
      = (emptyStore, ⟨OutcomeKind.DocumentCredited, "verify-guest", 350⟩) :=
  C8_document_confirmation_keeps_store emptyStore 0 7 ⟨"verify-guest:350", 350⟩
    ⟨"verify-guest", "One-Time Verification",
     "Per-document (no membership). 1–4h result.", 350⟩
    (by decide) (by decide)

/-- C9: the admin fan-out attempts delivery to each configured recipient
exactly once and in order, for every delivery oracle — so one
recipient's failure never suppresses the attempts to the others; the
function is total, so no failure propagates as an exception; and the
store produced by the payment handler is unchanged by the subsequent
fan-out, whatever the oracle does. -/
theorem C9_fanout_each_recipient_once (admin_ids : List Int) (deliver : Int → Bool)
    (s : Store) (now : Int) (u : Nat) (sp : SuccessfulPayment) :
    admin_alert admin_ids deliver
        = admin_ids.map (fun a => ⟨a, deliver a⟩)
    ∧ (admin_alert admin_ids deliver).map DeliveryAttempt.recipient = admin_ids
    ∧ (on_success_and_alert s now u sp admin_ids deliver).1
        = (on_success s now u sp).1 := by
  have h1 : admin_alert admin_ids deliver
      = admin_ids.map (fun a => ⟨a, deliver a⟩) := by
    cases admin_ids <;> rfl
  refine ⟨h1, ?_, rfl⟩
  rw [h1, List.map_map]
  exact List.map_id admin_ids

/-- C10: both bots' pre-checkout handlers answer `ok=True` for every
query, independently of its payload, amount, payer, membership state or
time — no validation happens between invoice issuance and capture. -/
theorem C10_precheckout_always_ok (s : Store) (now : Int) (q : PreCheckoutQuery) :
    precheckout s now q = true ∧ stars_bot_precheckout q = true :=
  ⟨rfl, rfl⟩

end TrustTrade
